import Mathlib

/-!
# Verification of the Score Performance Metrics Engine (`src/utils/rosu.py`)

Shallow embedding of the metrics engine of the osubot repository.  Python
integers are modelled as `Int` (arbitrary precision), Python float arithmetic
on the small rationals appearing here as `ℚ`, `math.ceil` as `Int.ceil`,
and fallible calls as `Except PyError`.  The external native calculator
(`rosu_pp_py`) is kept abstract: beatmaps are an arbitrary type and the
library's parse / difficulty / performance-evaluation entry points are fields
of a `RosuLib` record supplied by the caller of the model.  Attributes that
Python reads with `getattr(x, name, default)` are modelled as `Option` fields
read with `Option.getD`.
-/

/-- Python-level exceptions relevant to the engine: `CalculationError`-style
failures raised by the external calculator (unparseable beatmap, rejected mod
combination), and `TypeError` as raised by `int(None)`. -/
inductive PyError where
  | calculationError
  | typeError
  deriving DecidableEq, Repr

/-- Result record of `_calculate_fc_stats` (the Python function returns the
5-tuple `n300_fc, n100_fc, n50_fc, misses_fc, accuracy_fc`). -/
structure FcStats where
  n300_fc : Int
  n100_fc : Int
  n50_fc : Int
  misses_fc : Int
  accuracy_fc : ℚ
  deriving DecidableEq, Repr

/-- Embedding of `_calculate_fc_stats` (src/utils/rosu.py lines 30-79).
Python `/` is float division, modelled as division in `ℚ`;
`int(math.ceil(x))` is `Int.ceil`.  The `print` on line 65 is a
side-effect-only debug statement with no bearing on the returned values. -/
def _calculate_fc_stats (n300 n100 n50 misses total_objects_for_mode
    unseen_objects : Int) : FcStats :=
  let n300_fc := n300 + unseen_objects
  let counted_hits := total_objects_for_mode - misses
  if counted_hits ≤ 0 ∨ total_objects_for_mode ≤ 0 then
    -- Treat as SS
    { n300_fc := n300_fc, n100_fc := n100, n50_fc := n50, misses_fc := 0,
      accuracy_fc := 100 }
  else
    -- Distribute original misses between 300s and 100s
    let redistribution_ratio : ℚ := 1 - (n300_fc : ℚ) / (counted_hits : ℚ)
    let new_100s : Int := ⌈max 0 redistribution_ratio * (misses : ℚ)⌉
    let n300_fc := n300_fc + max 0 (misses - new_100s)
    let n100_fc := n100 + new_100s
    let n50_fc := n50
    { n300_fc := n300_fc, n100_fc := n100_fc, n50_fc := n50_fc, misses_fc := 0,
      accuracy_fc :=
        ((300 * n300_fc + 100 * n100_fc + 50 * n50_fc : Int) : ℚ)
          / ((300 * total_objects_for_mode : Int) : ℚ) * 100 }

/-- An element of the osu!api mods list consumed by `api_mods_to_string`
(src/utils/helpers.py lines 14-43): either a dict carrying an `acronym` key,
a dict without that key, or an object whose `acronym` attribute may be
missing/falsy (skipped) or a string. -/
inductive ApiMod where
  | dictMod (acronym : String)
  | dictNoAcronym
  | objMod (acronym : Option String)
  deriving DecidableEq, Repr

/-- The acronym contributed by one mod entry: dict entries with the key are
uppercased unconditionally; object entries only when the attribute is truthy
(present and non-empty).  The empty string models "skipped". -/
def modAcronym : ApiMod → String
  | ApiMod.dictMod a => a.toUpper
  | ApiMod.dictNoAcronym => ""
  | ApiMod.objMod none => ""
  | ApiMod.objMod (some a) => if a = "" then "" else a.toUpper

/-- Embedding of `api_mods_to_string` (src/utils/helpers.py): concatenation of
the uppercased acronyms, empty string if none. -/
def api_mods_to_string (mods : List ApiMod) : String :=
  String.join (mods.map modAcronym)

/-- Model of a `rosu.Performance` object: its configuration is accumulated by
the `set_*` calls, so we record each settable attribute as an optional field
(`none` = never set). -/
structure Performance where
  lazer : Bool
  mods : String
  n300 : Option Int
  n100 : Option Int
  n50 : Option Int
  misses : Option Int
  accuracy : Option ℚ
  combo : Option Int
  slider_end_hits : Option Int
  small_tick_hits : Option Int
  deriving DecidableEq, Repr

/-- Constructor call `rosu.Performance(lazer=lazer)`: a fresh performance
object with no configuration applied yet. -/
def Performance.make (lazer : Bool) : Performance :=
  ⟨lazer, "", none, none, none, none, none, none, none, none⟩

def Performance.set_mods (p : Performance) (m : String) : Performance :=
  { p with mods := m }

def Performance.set_n300 (p : Performance) (v : Int) : Performance :=
  { p with n300 := some v }

def Performance.set_n100 (p : Performance) (v : Int) : Performance :=
  { p with n100 := some v }

def Performance.set_n50 (p : Performance) (v : Int) : Performance :=
  { p with n50 := some v }

def Performance.set_misses (p : Performance) (v : Int) : Performance :=
  { p with misses := some v }

def Performance.set_accuracy (p : Performance) (v : ℚ) : Performance :=
  { p with accuracy := some v }

def Performance.set_combo (p : Performance) (v : Int) : Performance :=
  { p with combo := some v }

def Performance.set_slider_end_hits (p : Performance) (v : Int) : Performance :=
  { p with slider_end_hits := some v }

def Performance.set_small_tick_hits (p : Performance) (v : Int) : Performance :=
  { p with small_tick_hits := some v }

/-- Model of the `rosu.DifficultyAttributes` object produced by
`rosu.Difficulty(...).calculate(beatmap)`.  Each field is optional because the
engine reads all of them through `getattr(difficulty_attributes, name, 0)`. -/
structure DifficultyAttributes where
  stars : Option ℚ
  max_combo : Option Int
  n_circles : Option Int
  n_sliders : Option Int
  n_large_ticks : Option Int
  n_small_ticks : Option Int
  deriving DecidableEq, Repr

/-- Model of the api beatmap object `score.beatmap`: the metadata attributes
read with `getattr(api_beatmap_info, name, None)`.  The attribute called
`accuracy` is the overall difficulty (OD); `drain` is HP. -/
structure ApiBeatmapInfo where
  cs : Option ℚ
  ar : Option ℚ
  accuracy : Option ℚ
  drain : Option ℚ
  bpm : Option ℚ
  total_length : Option Int
  deriving DecidableEq, Repr

/-- Model of `score.statistics`: judgement counts read with
`int(getattr(score.statistics, name, 0) or 0)`. -/
structure Statistics where
  great : Option Int
  ok : Option Int
  meh : Option Int
  miss : Option Int
  slider_tail_hit : Option Int
  small_tick_hit : Option Int
  deriving DecidableEq, Repr

/-- Model of the ossapi `Score` object as read by the engine. -/
structure Score where
  mods : List ApiMod
  beatmap : ApiBeatmapInfo
  statistics : Statistics
  max_combo : Option Int
  accuracy : ℚ
  deriving DecidableEq, Repr

/-- Embedding of the `ScoreMetrics` dataclass (src/utils/rosu.py lines 11-27). -/
structure ScoreMetrics where
  pp : Option ℚ
  pp_if_fc : Option ℚ
  accuracy_if_fc : Option ℚ
  pp_if_ss : Option ℚ
  stars_with_mods : Option ℚ
  map_cs : Option ℚ
  map_ar : Option ℚ
  map_od : Option ℚ
  map_hp : Option ℚ
  map_bpm : Option ℚ
  map_length_sec : Option Int
  map_max_combo : Option Int
  deriving DecidableEq, Repr

/-- The external `rosu_pp_py` library, abstracted over the beatmap type `B`:
beatmap parsing (`rosu.Beatmap(path=...)`), difficulty calculation
(`rosu.Difficulty(mods, lazer).calculate(beatmap)`), performance evaluation
(`performance.calculate(beatmap).pp`), and the results of the two `hasattr`
capability probes made by the engine.  Errors raised by the library surface
as `Except.error`. -/
structure RosuLib (B : Type) where
  parse : String → Except PyError B
  difficulty : String → Bool → B → Except PyError DifficultyAttributes
  perfCalculate : Performance → B → Except PyError ℚ
  has_slider_end_hits : Bool
  has_small_tick_hits : Bool

/-- Embedding of `_calculate_fc_pp` (src/utils/rosu.py lines 82-141).
In the stable branch (`lazer = false`) the source runs
`performance_fc.set_combo(int(map_max_combo))`; when `map_max_combo` is
`None`, Python's `int(None)` raises `TypeError` before any calculator call,
modelled by returning `Except.error PyError.typeError`. -/
def _calculate_fc_pp {B : Type} (lib : RosuLib B) (beatmap : B)
    (mods_string : String) (lazer : Bool)
    (n300_fc n100_fc n50_fc misses_fc : Int) (accuracy_fc : ℚ)
    (map_max_combo : Option Int) (n_sliders n_small_ticks : Int) :
    Except PyError ℚ :=
  let performance_fc := (Performance.make lazer).set_mods mods_string
  if lazer then
    let performance_fc :=
      (((performance_fc.set_n300 n300_fc).set_n100 n100_fc).set_n50
        n50_fc).set_misses misses_fc
    -- For lazer scoring, ensure slider stuff is max
    let performance_fc :=
      if lib.has_slider_end_hits then performance_fc.set_slider_end_hits n_sliders
      else performance_fc
    let performance_fc :=
      if 0 < n_small_ticks ∧ lib.has_small_tick_hits then
        performance_fc.set_small_tick_hits n_small_ticks
      else performance_fc
    lib.perfCalculate performance_fc beatmap
  -- Fallback and use accuracy + 0 misses
  else
    let performance_fc := (performance_fc.set_accuracy accuracy_fc).set_misses 0
    match map_max_combo with
    | none => Except.error PyError.typeError
    | some c => lib.perfCalculate (performance_fc.set_combo c) beatmap

/-- Embedding of `_calculate_actual_pp` (src/utils/rosu.py lines 144-205).
Note: unlike `_calculate_fc_pp`, this function guards `set_combo` behind
`if score_max_combo is not None`. -/
def _calculate_actual_pp {B : Type} (lib : RosuLib B) (beatmap : B)
    (mods_string : String) (lazer : Bool) (n300 n100 n50 misses : Int)
    (actual_slider_end_hits actual_small_tick_hits : Int)
    (score_max_combo : Option Int) (score_accuracy : ℚ) :
    Except PyError ℚ :=
  let performance_actual := (Performance.make lazer).set_mods mods_string
  if lazer then
    let performance_actual :=
      (((performance_actual.set_n300 n300).set_n100 n100).set_n50
        n50).set_misses misses
    let performance_actual :=
      if lib.has_slider_end_hits then
        performance_actual.set_slider_end_hits actual_slider_end_hits
      else performance_actual
    let performance_actual :=
      if lib.has_small_tick_hits then
        performance_actual.set_small_tick_hits actual_small_tick_hits
      else performance_actual
    let performance_actual :=
      match score_max_combo with
      | some c => performance_actual.set_combo c
      | none => performance_actual
    lib.perfCalculate performance_actual beatmap
  else
    let accuracy_percent : ℚ := score_accuracy * 100
    let performance_actual :=
      (performance_actual.set_accuracy accuracy_percent).set_misses misses
    let performance_actual :=
      match score_max_combo with
      | some c => performance_actual.set_combo c
      | none => performance_actual
    lib.perfCalculate performance_actual beatmap

/-- Embedding of `_calculate_ss_pp` (src/utils/rosu.py lines 208-230): a fresh
performance object with 100% accuracy, zero misses and the mods applied. -/
def _calculate_ss_pp {B : Type} (lib : RosuLib B) (beatmap : B)
    (mods_string : String) (lazer : Bool) : Except PyError ℚ :=
  lib.perfCalculate
    ((((Performance.make lazer).set_accuracy 100).set_misses 0).set_mods
      mods_string) beatmap

/-- Embedding of `calculate_score_metrics` (src/utils/rosu.py lines 233-329).
The unused `mode` parameter of the source (never read in the body) is
omitted.  `int(getattr(difficulty_attributes, "max_combo", 0)) or None`
yields `None` exactly when the attribute is absent or zero, modelled by the
`if mc = 0` test.  Exception propagation out of the external calls is the
`Except` error path. -/
def calculate_score_metrics {B : Type} (lib : RosuLib B) (beatmap_path : String)
    (score : Score) (lazer : Bool) : Except PyError ScoreMetrics :=
  -- Mods parsing
  let mods_string := api_mods_to_string score.mods
  -- Beatmap parsing
  let api_beatmap_info := score.beatmap
  match lib.parse beatmap_path with
  | Except.error e => Except.error e
  | Except.ok beatmap =>
    -- Difficulty attributes
    match lib.difficulty mods_string lazer beatmap with
    | Except.error e => Except.error e
    | Except.ok difficulty_attributes =>
      let stars : ℚ := difficulty_attributes.stars.getD 0
      let mc : Int := difficulty_attributes.max_combo.getD 0
      let map_max_combo : Option Int := if mc = 0 then none else some mc
      -- Beatmap stats
      let cs := api_beatmap_info.cs
      let ar := api_beatmap_info.ar
      let od := api_beatmap_info.accuracy
      let hp := api_beatmap_info.drain
      let bpm := api_beatmap_info.bpm
      let length_sec := api_beatmap_info.total_length
      let n_circles : Int := difficulty_attributes.n_circles.getD 0
      let n_sliders : Int := difficulty_attributes.n_sliders.getD 0
      -- `n_large_ticks` is read on line 274 of the source but never used:
      -- it does not enter `total_objects_for_mode` nor any later computation.
      let _n_large_ticks : Int := difficulty_attributes.n_large_ticks.getD 0
      let n_small_ticks : Int := difficulty_attributes.n_small_ticks.getD 0
      let total_objects_for_mode := n_circles + n_sliders
      -- Score data from api
      let n300 : Int := score.statistics.great.getD 0
      let n100 : Int := score.statistics.ok.getD 0
      let n50 : Int := score.statistics.meh.getD 0
      let misses : Int := score.statistics.miss.getD 0
      -- Passed objects and unseen objects
      let passed_objects_count := n300 + n100 + n50 + misses
      let unseen_objects := max 0 (total_objects_for_mode - passed_objects_count)
      -- Calculate FC stats
      let fc := _calculate_fc_stats n300 n100 n50 misses total_objects_for_mode
        unseen_objects
      -- Calculate FC PP
      match _calculate_fc_pp lib beatmap mods_string lazer fc.n300_fc fc.n100_fc
        fc.n50_fc fc.misses_fc fc.accuracy_fc map_max_combo n_sliders
        n_small_ticks with
      | Except.error e => Except.error e
      | Except.ok pp_fc =>
        -- Actual slider hits
        let actual_slider_end_hits : Int :=
          score.statistics.slider_tail_hit.getD 0
        let actual_small_tick_hits : Int :=
          score.statistics.small_tick_hit.getD 0
        -- Score combo and accuracy
        let score_max_combo := score.max_combo
        -- Calculate actual PP
        match _calculate_actual_pp lib beatmap mods_string lazer n300 n100 n50
          misses actual_slider_end_hits actual_small_tick_hits score_max_combo
          score.accuracy with
        | Except.error e => Except.error e
        | Except.ok actual_pp =>
          -- Calculate SS PP
          match _calculate_ss_pp lib beatmap mods_string lazer with
          | Except.error e => Except.error e
          | Except.ok pp_ss =>
            Except.ok
              { pp := some actual_pp
                pp_if_fc := some pp_fc
                accuracy_if_fc := some fc.accuracy_fc
                pp_if_ss := some pp_ss
                stars_with_mods := some stars
                map_cs := cs
                map_ar := ar
                map_od := od
                map_hp := hp
                map_bpm := bpm
                map_length_sec := length_sec
                map_max_combo := map_max_combo }

/-- The number of misses converted to 100s in the non-guard branch of
`_calculate_fc_stats`, isolated for reasoning:
`int(math.ceil(max(0.0, 1 - n300_fc / counted_hits) * misses))`. -/
def fcNewOk (n300_fc counted_hits misses : Int) : Int :=
  ⌈max 0 (1 - (n300_fc : ℚ) / (counted_hits : ℚ)) * (misses : ℚ)⌉

/-- Modelled from the spec: §4 Step 3's non-guard redistribution, written from
the spec's words for comparison with the source-translated
`_calculate_fc_stats`: seed `bestFc = great + unseenCount`; clamp
`redistributionRatio = 1 - bestFc/countedHits` to be nonnegative;
`newOkFromMisses = ceil(redistributionRatio * miss)`; remaining misses become
best judgements; `okFc = ok + newOkFromMisses`; `mehFc = meh`; zero misses;
`accuracyFc = (300·bestFc + 100·okFc + 50·mehFc)/(300·totalObjectsForMode)·100`. -/
def fcRedistributionSpec (great ok meh miss totalObjectsForMode
    unseenCount : Int) : FcStats :=
  let bestFcSeed := great + unseenCount
  let countedHits := totalObjectsForMode - miss
  let redistributionRatio : ℚ :=
    max 0 (1 - (bestFcSeed : ℚ) / (countedHits : ℚ))
  let newOkFromMisses : Int := ⌈redistributionRatio * (miss : ℚ)⌉
  let bestFc := bestFcSeed + max 0 (miss - newOkFromMisses)
  let okFc := ok + newOkFromMisses
  let mehFc := meh
  { n300_fc := bestFc, n100_fc := okFc, n50_fc := mehFc, misses_fc := 0,
    accuracy_fc := ((300 * bestFc + 100 * okFc + 50 * mehFc : Int) : ℚ)
      / ((300 * totalObjectsForMode : Int) : ℚ) * 100 }

/-- An api beatmap object with every metadata attribute absent. -/
def emptyBeatmapInfo : ApiBeatmapInfo :=
  { cs := none, ar := none, accuracy := none, drain := none, bpm := none,
    total_length := none }

/-- Difficulty attributes of a 12-object map whose `max_combo` attribute is
absent. -/
def attrsNoMaxCombo : DifficultyAttributes :=
  { stars := some 5, max_combo := none, n_circles := some 10,
    n_sliders := some 2, n_large_ticks := some 3, n_small_ticks := some 4 }

/-- An external calculator (over the trivial beatmap type) that never fails:
parsing succeeds, difficulty yields `attrsNoMaxCombo`, every performance
evaluation returns 1 pp. -/
def libNoMaxCombo : RosuLib Unit :=
  { parse := fun _ => Except.ok ()
    difficulty := fun _ _ _ => Except.ok attrsNoMaxCombo
    perfCalculate := fun _ _ => Except.ok 1
    has_slider_end_hits := true
    has_small_tick_hits := true }

/-- A well-formed score: 10 greats, 1 ok, 1 meh, 0 misses on the 12-object
map. -/
def scoreFullPass : Score :=
  { mods := []
    beatmap := emptyBeatmapInfo
    statistics := { great := some 10, ok := some 1, meh := some 1,
                    miss := some 0, slider_tail_hit := some 2,
                    small_tick_hit := some 4 }
    max_combo := some 14
    accuracy := 875 / 1000 }

/-- A second score with the same (empty) mods but different hit statistics,
combo and accuracy. -/
def scoreOtherStats : Score :=
  { mods := []
    beatmap := emptyBeatmapInfo
    statistics := { great := some 5, ok := some 2, meh := some 1,
                    miss := some 4, slider_tail_hit := some 1,
                    small_tick_hit := some 2 }
    max_combo := some 7
    accuracy := 7 / 10 }

/-- The metrics produced for `scoreFullPass` under `libNoMaxCombo` with
`lazer = true`. -/
def metricsFullPass : ScoreMetrics :=
  { pp := some 1, pp_if_fc := some 1, accuracy_if_fc := some (175 / 2),
    pp_if_ss := some 1, stars_with_mods := some 5, map_cs := none,
    map_ar := none, map_od := none, map_hp := none, map_bpm := none,
    map_length_sec := none, map_max_combo := none }

/-- The metrics produced for `scoreOtherStats` under `libNoMaxCombo` with
`lazer = true`. -/
def metricsOtherStats : ScoreMetrics :=
  { pp := some 1, pp_if_fc := some 1, accuracy_if_fc := some (425 / 6),
    pp_if_ss := some 1, stars_with_mods := some 5, map_cs := none,
    map_ar := none, map_od := none, map_hp := none, map_bpm := none,
    map_length_sec := none, map_max_combo := none }

/-- Difficulty attributes of a map with 9 circles and no sliders (a map whose
remaining hittable objects — e.g. spinners — are not counted by the engine). -/
def attrsNineCircles : DifficultyAttributes :=
  { stars := some 1, max_combo := some 9, n_circles := some 9,
    n_sliders := some 0, n_large_ticks := some 0, n_small_ticks := some 0 }

/-- A never-failing external calculator returning `attrsNineCircles`. -/
def libNineCircles : RosuLib Unit :=
  { parse := fun _ => Except.ok ()
    difficulty := fun _ _ _ => Except.ok attrsNineCircles
    perfCalculate := fun _ _ => Except.ok 1
    has_slider_end_hits := true
    has_small_tick_hits := true }

/-- A score reporting 10 greats — one more passed object than
`circleCount + sliderCount` of `attrsNineCircles`. -/
def scoreTenGreats : Score :=
  { mods := []
    beatmap := emptyBeatmapInfo
    statistics := { great := some 10, ok := some 0, meh := some 0,
                    miss := some 0, slider_tail_hit := some 0,
                    small_tick_hit := some 0 }
    max_combo := some 10
    accuracy := 1 }

/-- The metrics produced for `scoreTenGreats` under `libNineCircles` with
`lazer = true`: its FC accuracy is 1000/9 ≈ 111.1%. -/
def metricsTenGreats : ScoreMetrics :=
  { pp := some 1, pp_if_fc := some 1, accuracy_if_fc := some (1000 / 9),
    pp_if_ss := some 1, stars_with_mods := some 1, map_cs := none,
    map_ar := none, map_od := none, map_hp := none, map_bpm := none,
    map_length_sec := none, map_max_combo := some 9 }

theorem ceil_eq_neg_floor (a : ℚ) : ⌈a⌉ = -⌊-a⌋ := by
  rw [Int.floor_neg, neg_neg]

/-- Shape of the non-guard branch of `_calculate_fc_stats`, with the ceiling
expression abstracted as `fcNewOk`. -/
theorem fc_stats_nonguard (n300 n100 n50 misses T u : Int)
    (h1 : 0 < T - misses) (h2 : 0 < T) :
    _calculate_fc_stats n300 n100 n50 misses T u =
      { n300_fc := n300 + u + max 0 (misses - fcNewOk (n300 + u) (T - misses) misses),
        n100_fc := n100 + fcNewOk (n300 + u) (T - misses) misses,
        n50_fc := n50, misses_fc := 0,
        accuracy_fc :=
          ((300 * (n300 + u + max 0 (misses - fcNewOk (n300 + u) (T - misses) misses))
              + 100 * (n100 + fcNewOk (n300 + u) (T - misses) misses)
              + 50 * n50 : Int) : ℚ)
            / ((300 * T : Int) : ℚ) * 100 } := by
  simp only [_calculate_fc_stats, fcNewOk]
  rw [if_neg (by omega : ¬(T - misses ≤ 0 ∨ T ≤ 0))]

theorem fcNewOk_nonneg (a c misses : Int) (hm : 0 ≤ misses) :
    0 ≤ fcNewOk a c misses :=
  Int.ceil_nonneg (mul_nonneg (le_max_left _ _) (by exact_mod_cast hm))

theorem fcNewOk_le_misses (a c misses : Int) (ha : 0 ≤ a) (hc : 0 < c)
    (hm : 0 ≤ misses) : fcNewOk a c misses ≤ misses := by
  rw [fcNewOk, Int.ceil_le]
  have hr : max 0 (1 - (a : ℚ) / (c : ℚ)) ≤ 1 := by
    apply max_le (by norm_num)
    have hd : 0 ≤ (a : ℚ) / (c : ℚ) :=
      div_nonneg (by exact_mod_cast ha) (by exact_mod_cast hc.le)
    linarith
  calc max 0 (1 - (a : ℚ) / (c : ℚ)) * (misses : ℚ)
      ≤ 1 * (misses : ℚ) :=
        mul_le_mul_of_nonneg_right hr (by exact_mod_cast hm)
    _ = (misses : ℚ) := one_mul _

/-- Shape of the guard branch of `_calculate_fc_stats`. -/
theorem fc_stats_guard_eq (n300 n100 n50 misses T u : Int)
    (h : T - misses ≤ 0 ∨ T ≤ 0) :
    _calculate_fc_stats n300 n100 n50 misses T u =
      { n300_fc := n300 + u, n100_fc := n100, n50_fc := n50, misses_fc := 0,
        accuracy_fc := 100 } := by
  simp only [_calculate_fc_stats]
  rw [if_pos h]

/-- C2: on Scenario A's input (`great=80, ok=10, meh=5, miss=5`,
`totalObjectsForMode=100`, `unseenCount=0`) the claimed judgement counts are
produced but the resulting FC accuracy is 88.5%, not the claimed 86.0%. -/
theorem scenarioA_accuracy_not_86 :
    (_calculate_fc_stats 80 10 5 5 100 0).n300_fc = 84 ∧
    (_calculate_fc_stats 80 10 5 5 100 0).accuracy_fc ≠ 86 := by
  constructor
  · norm_num [_calculate_fc_stats, max_def, ceil_eq_neg_floor]
  · norm_num [_calculate_fc_stats, max_def, ceil_eq_neg_floor]

/-- C2 (amended): Scenario A produces `countedHits = 95`,
`newOkFromMisses = 1` (so `okFc = 10 + 1 = 11`), `bestFc = 80 + 4 = 84`,
`mehFc = 5`, zero misses, and `accuracyFc = 88.5%` (`177/2`). -/
theorem scenarioA_values :
    _calculate_fc_stats 80 10 5 5 100 0 =
      { n300_fc := 84, n100_fc := 11, n50_fc := 5, misses_fc := 0,
        accuracy_fc := 177 / 2 } ∧
    fcNewOk (80 + 0) (100 - 5) 5 = 1 := by
  constructor
  · norm_num [_calculate_fc_stats, max_def, ceil_eq_neg_floor]
  · norm_num [fcNewOk, max_def, ceil_eq_neg_floor]

/-- C4: in the non-guard branch (`countedHits > 0` and
`totalObjectsForMode > 0`), `_calculate_fc_stats` computes exactly the spec's
composition: seeded `bestFc`, ratio clamped to `≥ 0`, ceiling rounding of
`ratio × miss`, remaining misses added to `bestFc`, `okFc = ok + newOk`,
`mehFc = meh`, zero misses, and the 300/100/50-weighted accuracy. -/
theorem fc_stats_matches_spec_redistribution (great ok meh miss T u : Int)
    (h : 0 < T - miss ∧ 0 < T) :
    _calculate_fc_stats great ok meh miss T u =
      fcRedistributionSpec great ok meh miss T u := by
  simp only [_calculate_fc_stats, fcRedistributionSpec]
  rw [if_neg (by omega : ¬(T - miss ≤ 0 ∨ T ≤ 0))]

theorem fc_stats_matches_spec_redistribution_witness :
    (0 < (100 : Int) - 5 ∧ 0 < (100 : Int)) ∧
    _calculate_fc_stats 80 10 5 5 100 0 = fcRedistributionSpec 80 10 5 5 100 0 :=
  ⟨by norm_num,
    fc_stats_matches_spec_redistribution 80 10 5 5 100 0 (by norm_num)⟩

/-- C5: with `miss = 0`, no unseen objects and
`great + ok + meh = totalObjectsForMode > 0`, the redistribution is a no-op:
the FC counts equal the actual counts and `accuracyFc` is the actual
accuracy. -/
theorem fc_stats_noop_on_full_pass (great ok meh T : Int) (hT : 0 < T)
    (hsum : great + ok + meh + 0 = T) :
    _calculate_fc_stats great ok meh 0 T 0 =
      { n300_fc := great, n100_fc := ok, n50_fc := meh, misses_fc := 0,
        accuracy_fc := ((300 * great + 100 * ok + 50 * meh : Int) : ℚ)
          / ((300 * T : Int) : ℚ) * 100 } := by
  rw [fc_stats_nonguard great ok meh 0 T 0 (by omega) hT]
  have hnew : fcNewOk (great + 0) (T - 0) 0 = 0 := by
    rw [fcNewOk]
    norm_num
  rw [hnew]
  norm_num

theorem fc_stats_noop_on_full_pass_witness :
    (0 < (95 : Int) ∧ (80 : Int) + 10 + 5 + 0 = 95) ∧
    _calculate_fc_stats 80 10 5 0 95 0 =
      { n300_fc := 80, n100_fc := 10, n50_fc := 5, misses_fc := 0,
        accuracy_fc := ((300 * 80 + 100 * 10 + 50 * 5 : Int) : ℚ)
          / ((300 * 95 : Int) : ℚ) * 100 } :=
  ⟨by norm_num, fc_stats_noop_on_full_pass 80 10 5 95 (by norm_num) (by norm_num)⟩

/-- C6: whenever `countedHits ≤ 0` (in particular whenever
`totalObjectsForMode = 0`), `_calculate_fc_stats` takes the "treat as SS"
branch — `accuracyFc = 100`, zero misses, `okFc = ok`, `mehFc = meh` — and the
division of the other branch is never evaluated (the function is total). -/
theorem fc_stats_guard_treat_as_ss (n300 n100 n50 misses T u : Int)
    (h : T - misses ≤ 0 ∨ T ≤ 0) :
    _calculate_fc_stats n300 n100 n50 misses T u =
      { n300_fc := n300 + u, n100_fc := n100, n50_fc := n50, misses_fc := 0,
        accuracy_fc := 100 } :=
  fc_stats_guard_eq n300 n100 n50 misses T u h

theorem fc_stats_guard_treat_as_ss_witness :
    ((0 : Int) - 0 ≤ 0 ∨ (0 : Int) ≤ 0) ∧
    _calculate_fc_stats 0 0 0 0 0 0 =
      { n300_fc := 0, n100_fc := 0, n50_fc := 0, misses_fc := 0,
        accuracy_fc := 100 } :=
  ⟨Or.inr le_rfl, fc_stats_guard_treat_as_ss 0 0 0 0 0 0 (Or.inr le_rfl)⟩

/-- C3: with nonnegative judgement counts summing to at most
`totalObjectsForMode` and `unseenCount` computed as the caller does, the FC
projection's accuracy is at least the actual play's accuracy in the
redistribution branch, and is exactly 100% in the guard branch. -/
theorem fc_projection_ge_actual (great ok meh miss T : Int)
    (hg : 0 ≤ great) (ho : 0 ≤ ok) (hm : 0 ≤ meh) (hmiss : 0 ≤ miss)
    (hsum : great + ok + meh + miss ≤ T) :
    (0 < T - miss →
      ((300 * great + 100 * ok + 50 * meh : Int) : ℚ)
          / ((300 * T : Int) : ℚ) * 100 ≤
        (_calculate_fc_stats great ok meh miss T
          (max 0 (T - (great + ok + meh + miss)))).accuracy_fc)
    ∧ ((T - miss ≤ 0 ∨ T ≤ 0) →
      (_calculate_fc_stats great ok meh miss T
        (max 0 (T - (great + ok + meh + miss)))).accuracy_fc = 100) := by
  constructor
  · intro hc
    have hT : 0 < T := by omega
    have hu : max 0 (T - (great + ok + meh + miss))
        = T - (great + ok + meh + miss) := by omega
    rw [hu, fc_stats_nonguard great ok meh miss T _ hc hT]
    dsimp only
    set N := fcNewOk (great + (T - (great + ok + meh + miss))) (T - miss) miss
      with hN
    have hN0 : 0 ≤ N := fcNewOk_nonneg _ _ _ hmiss
    have hNm : N ≤ miss := fcNewOk_le_misses _ _ _ (by omega) hc hmiss
    have hmax : max 0 (miss - N) = miss - N := by omega
    rw [hmax]
    have hD : (0 : ℚ) < ((300 * T : Int) : ℚ) := by
      exact_mod_cast (by omega : (0 : Int) < 300 * T)
    apply mul_le_mul_of_nonneg_right _ (by norm_num : (0 : ℚ) ≤ 100)
    rw [div_le_div_iff_of_pos_right hD]
    exact_mod_cast (by omega :
      (300 * great + 100 * ok + 50 * meh : Int) ≤
        300 * (great + (T - (great + ok + meh + miss)) + (miss - N))
          + 100 * (ok + N) + 50 * meh)
  · intro h
    rw [fc_stats_guard_eq great ok meh miss T _ h]

theorem fc_projection_ge_actual_witness :
    ((0 : Int) ≤ 80 ∧ (0 : Int) ≤ 10 ∧ (0 : Int) ≤ 5 ∧ (0 : Int) ≤ 5 ∧
      (80 : Int) + 10 + 5 + 5 ≤ 100) ∧
    ((300 * 80 + 100 * 10 + 50 * 5 : Int) : ℚ) / ((300 * 100 : Int) : ℚ) * 100 ≤
      (_calculate_fc_stats 80 10 5 5 100
        (max 0 (100 - (80 + 10 + 5 + 5)))).accuracy_fc := by
  refine ⟨by norm_num, ?_⟩
  exact (fc_projection_ge_actual 80 10 5 5 100 (by norm_num) (by norm_num)
    (by norm_num) (by norm_num) (by norm_num)).1 (by norm_num)

/-- C9: in the redistribution branch the FC counts conserve the object
total — `bestFc + okFc + mehFc + missesFc = totalObjectsForMode` — and
`newOkFromMisses` never exceeds `miss` (`okFc ≤ ok + miss`), so the
`max(0, miss - newOkFromMisses)` clamp never truncates. -/
theorem fc_stats_conserves_total (great ok meh miss T : Int)
    (hg : 0 ≤ great) (ho : 0 ≤ ok) (hm : 0 ≤ meh) (hmiss : 0 ≤ miss)
    (hsum : great + ok + meh + miss ≤ T) (hc : 0 < T - miss) :
    (_calculate_fc_stats great ok meh miss T
        (T - (great + ok + meh + miss))).n300_fc
      + (_calculate_fc_stats great ok meh miss T
          (T - (great + ok + meh + miss))).n100_fc
      + (_calculate_fc_stats great ok meh miss T
          (T - (great + ok + meh + miss))).n50_fc
      + (_calculate_fc_stats great ok meh miss T
          (T - (great + ok + meh + miss))).misses_fc = T
    ∧ (_calculate_fc_stats great ok meh miss T
        (T - (great + ok + meh + miss))).n100_fc ≤ ok + miss := by
  have hT : 0 < T := by omega
  rw [fc_stats_nonguard great ok meh miss T _ hc hT]
  dsimp only
  set N := fcNewOk (great + (T - (great + ok + meh + miss))) (T - miss) miss
    with hN
  have hN0 : 0 ≤ N := fcNewOk_nonneg _ _ _ hmiss
  have hNm : N ≤ miss := fcNewOk_le_misses _ _ _ (by omega) hc hmiss
  constructor
  · omega
  · omega

theorem fc_stats_conserves_total_witness :
    ((0 : Int) ≤ 80 ∧ (0 : Int) ≤ 10 ∧ (0 : Int) ≤ 5 ∧ (0 : Int) ≤ 5 ∧
      (80 : Int) + 10 + 5 + 5 ≤ 100 ∧ (0 : Int) < 100 - 5) ∧
    ((_calculate_fc_stats 80 10 5 5 100 (100 - (80 + 10 + 5 + 5))).n300_fc
      + (_calculate_fc_stats 80 10 5 5 100 (100 - (80 + 10 + 5 + 5))).n100_fc
      + (_calculate_fc_stats 80 10 5 5 100 (100 - (80 + 10 + 5 + 5))).n50_fc
      + (_calculate_fc_stats 80 10 5 5 100 (100 - (80 + 10 + 5 + 5))).misses_fc
        = 100
      ∧ (_calculate_fc_stats 80 10 5 5 100
          (100 - (80 + 10 + 5 + 5))).n100_fc ≤ 10 + 5) := by
  refine ⟨by norm_num, ?_⟩
  exact fc_stats_conserves_total 80 10 5 5 100 (by norm_num) (by norm_num)
    (by norm_num) (by norm_num) (by norm_num) (by norm_num)

/-- The FC accuracy lies in [0, 100] whenever the judgement counts are
nonnegative and their sum does not exceed the object total (helper for the
range property of `accuracy_if_fc`). -/
theorem fc_stats_accuracy_range (great ok meh miss T : Int)
    (hg : 0 ≤ great) (ho : 0 ≤ ok) (hm : 0 ≤ meh) (hmiss : 0 ≤ miss)
    (hsum : great + ok + meh + miss ≤ T) :
    0 ≤ (_calculate_fc_stats great ok meh miss T
          (max 0 (T - (great + ok + meh + miss)))).accuracy_fc
    ∧ (_calculate_fc_stats great ok meh miss T
        (max 0 (T - (great + ok + meh + miss)))).accuracy_fc ≤ 100 := by
  by_cases hc : 0 < T - miss
  · have hT : 0 < T := by omega
    have hu : max 0 (T - (great + ok + meh + miss))
        = T - (great + ok + meh + miss) := by omega
    rw [hu, fc_stats_nonguard great ok meh miss T _ hc hT]
    dsimp only
    set N := fcNewOk (great + (T - (great + ok + meh + miss))) (T - miss) miss
      with hN
    have hN0 : 0 ≤ N := fcNewOk_nonneg _ _ _ hmiss
    have hNm : N ≤ miss := fcNewOk_le_misses _ _ _ (by omega) hc hmiss
    have hmax : max 0 (miss - N) = miss - N := by omega
    rw [hmax]
    have hD : (0 : ℚ) < ((300 * T : Int) : ℚ) := by
      exact_mod_cast (by omega : (0 : Int) < 300 * T)
    constructor
    · apply mul_nonneg _ (by norm_num : (0 : ℚ) ≤ 100)
      apply div_nonneg _ hD.le
      exact_mod_cast (by omega :
        (0 : Int) ≤ 300 * (great + (T - (great + ok + meh + miss)) + (miss - N))
          + 100 * (ok + N) + 50 * meh)
    · have h1 : ((300 * (great + (T - (great + ok + meh + miss)) + (miss - N))
          + 100 * (ok + N) + 50 * meh : Int) : ℚ)
          / ((300 * T : Int) : ℚ) ≤ 1 := by
        rw [div_le_one hD]
        exact_mod_cast (by omega :
          (300 * (great + (T - (great + ok + meh + miss)) + (miss - N))
            + 100 * (ok + N) + 50 * meh : Int) ≤ 300 * T)
      calc ((300 * (great + (T - (great + ok + meh + miss)) + (miss - N))
            + 100 * (ok + N) + 50 * meh : Int) : ℚ)
            / ((300 * T : Int) : ℚ) * 100
          ≤ 1 * 100 := mul_le_mul_of_nonneg_right h1 (by norm_num)
        _ = 100 := one_mul _
  · rw [fc_stats_guard_eq great ok meh miss T _ (Or.inl (by omega))]
    norm_num

/-- Extraction lemma: a successful run of `calculate_score_metrics` reports as
`accuracy_if_fc` exactly the FC accuracy computed by `_calculate_fc_stats` on
the score's judgement counts, with the object total
`circleCount + sliderCount` and the unseen count derived from that same
total. -/
theorem accuracy_if_fc_of_ok {B : Type} (lib : RosuLib B) (path : String)
    (score : Score) (lazer : Bool) (bm : B) (attrs : DifficultyAttributes)
    (m : ScoreMetrics)
    (hp : lib.parse path = Except.ok bm)
    (hd : lib.difficulty (api_mods_to_string score.mods) lazer bm
      = Except.ok attrs)
    (hm : calculate_score_metrics lib path score lazer = Except.ok m) :
    m.accuracy_if_fc = some
      ((_calculate_fc_stats (score.statistics.great.getD 0)
        (score.statistics.ok.getD 0) (score.statistics.meh.getD 0)
        (score.statistics.miss.getD 0)
        (attrs.n_circles.getD 0 + attrs.n_sliders.getD 0)
        (max 0 (attrs.n_circles.getD 0 + attrs.n_sliders.getD 0
          - (score.statistics.great.getD 0 + score.statistics.ok.getD 0
            + score.statistics.meh.getD 0
            + score.statistics.miss.getD 0)))).accuracy_fc) := by
  simp only [calculate_score_metrics, hp, hd] at hm
  split at hm
  · exact absurd hm (by simp)
  · split at hm
    · exact absurd hm (by simp)
    · split at hm
      · exact absurd hm (by simp)
      · cases hm
        rfl

/-- Concrete evaluation: `scoreFullPass` under `libNoMaxCombo`, lazer model. -/
theorem eval_scoreFullPass :
    calculate_score_metrics libNoMaxCombo "beatmap.osu" scoreFullPass true
      = Except.ok metricsFullPass := by
  norm_num [calculate_score_metrics, libNoMaxCombo, attrsNoMaxCombo,
    scoreFullPass, emptyBeatmapInfo, metricsFullPass, _calculate_fc_stats,
    _calculate_fc_pp, _calculate_actual_pp, _calculate_ss_pp,
    api_mods_to_string, max_def, ceil_eq_neg_floor]

/-- Concrete evaluation: `scoreOtherStats` under `libNoMaxCombo`, lazer
model. -/
theorem eval_scoreOtherStats :
    calculate_score_metrics libNoMaxCombo "beatmap.osu" scoreOtherStats true
      = Except.ok metricsOtherStats := by
  norm_num [calculate_score_metrics, libNoMaxCombo, attrsNoMaxCombo,
    scoreOtherStats, emptyBeatmapInfo, metricsOtherStats, _calculate_fc_stats,
    _calculate_fc_pp, _calculate_actual_pp, _calculate_ss_pp,
    api_mods_to_string, max_def, ceil_eq_neg_floor]

/-- C10: every invocation computes the object total as
`circleCount + sliderCount` — identically for both scoring models and never
including `largeTickCount`/`smallTickCount` — and that single value is what
both the unseen-object computation and the FC redistribution receive, as
witnessed by the reported `accuracy_if_fc`. -/
theorem total_objects_is_circles_plus_sliders {B : Type} (lib : RosuLib B)
    (path : String) (score : Score) (lazer : Bool) (bm : B)
    (attrs : DifficultyAttributes) (m : ScoreMetrics)
    (hp : lib.parse path = Except.ok bm)
    (hd : lib.difficulty (api_mods_to_string score.mods) lazer bm
      = Except.ok attrs)
    (hm : calculate_score_metrics lib path score lazer = Except.ok m) :
    m.accuracy_if_fc = some
      ((_calculate_fc_stats (score.statistics.great.getD 0)
        (score.statistics.ok.getD 0) (score.statistics.meh.getD 0)
        (score.statistics.miss.getD 0)
        (attrs.n_circles.getD 0 + attrs.n_sliders.getD 0)
        (max 0 (attrs.n_circles.getD 0 + attrs.n_sliders.getD 0
          - (score.statistics.great.getD 0 + score.statistics.ok.getD 0
            + score.statistics.meh.getD 0
            + score.statistics.miss.getD 0)))).accuracy_fc) :=
  accuracy_if_fc_of_ok lib path score lazer bm attrs m hp hd hm

theorem total_objects_is_circles_plus_sliders_witness :
    (libNoMaxCombo.parse "beatmap.osu" = Except.ok () ∧
      libNoMaxCombo.difficulty (api_mods_to_string scoreFullPass.mods) true ()
        = Except.ok attrsNoMaxCombo ∧
      calculate_score_metrics libNoMaxCombo "beatmap.osu" scoreFullPass true
        = Except.ok metricsFullPass) ∧
    metricsFullPass.accuracy_if_fc = some
      ((_calculate_fc_stats (scoreFullPass.statistics.great.getD 0)
        (scoreFullPass.statistics.ok.getD 0)
        (scoreFullPass.statistics.meh.getD 0)
        (scoreFullPass.statistics.miss.getD 0)
        (attrsNoMaxCombo.n_circles.getD 0 + attrsNoMaxCombo.n_sliders.getD 0)
        (max 0 (attrsNoMaxCombo.n_circles.getD 0
          + attrsNoMaxCombo.n_sliders.getD 0
          - (scoreFullPass.statistics.great.getD 0
            + scoreFullPass.statistics.ok.getD 0
            + scoreFullPass.statistics.meh.getD 0
            + scoreFullPass.statistics.miss.getD 0)))).accuracy_fc) :=
  ⟨⟨rfl, rfl, eval_scoreFullPass⟩,
    total_objects_is_circles_plus_sliders libNoMaxCombo "beatmap.osu"
      scoreFullPass true () attrsNoMaxCombo metricsFullPass rfl rfl
      eval_scoreFullPass⟩

/-- C7: two invocations with the same beatmap path, the same mods string and
the same scoring-model flag but arbitrarily different hit statistics, combo
and accuracy report equal `pp_if_ss` values: the SS evaluation reads only the
beatmap, the mods and the fixed 100%-accuracy/zero-miss profile. -/
theorem pp_if_ss_ignores_hit_statistics {B : Type} (lib : RosuLib B)
    (path : String) (s1 s2 : Score) (lazer : Bool)
    (hmods : api_mods_to_string s1.mods = api_mods_to_string s2.mods)
    (m1 m2 : ScoreMetrics)
    (h1 : calculate_score_metrics lib path s1 lazer = Except.ok m1)
    (h2 : calculate_score_metrics lib path s2 lazer = Except.ok m2) :
    m1.pp_if_ss = m2.pp_if_ss := by
  rcases hp : lib.parse path with e | bm
  · simp only [calculate_score_metrics, hp] at h1
    exact absurd h1 (by simp)
  rcases hd : lib.difficulty (api_mods_to_string s2.mods) lazer bm
    with e | attrs
  · simp only [calculate_score_metrics, hmods, hp, hd] at h1
    exact absurd h1 (by simp)
  rcases hss : _calculate_ss_pp lib bm (api_mods_to_string s2.mods) lazer
    with e | ss
  · simp only [calculate_score_metrics, hmods, hp, hd, hss] at h1
    split at h1
    · exact absurd h1 (by simp)
    · split at h1
      · exact absurd h1 (by simp)
      · exact absurd h1 (by simp)
  · simp only [calculate_score_metrics, hmods, hp, hd, hss] at h1 h2
    split at h1
    · exact absurd h1 (by simp)
    · split at h1
      · exact absurd h1 (by simp)
      · split at h2
        · exact absurd h2 (by simp)
        · split at h2
          · exact absurd h2 (by simp)
          · cases h1
            cases h2
            rfl

theorem pp_if_ss_ignores_hit_statistics_witness :
    (api_mods_to_string scoreFullPass.mods
        = api_mods_to_string scoreOtherStats.mods ∧
      calculate_score_metrics libNoMaxCombo "beatmap.osu" scoreFullPass true
        = Except.ok metricsFullPass ∧
      calculate_score_metrics libNoMaxCombo "beatmap.osu" scoreOtherStats true
        = Except.ok metricsOtherStats) ∧
    metricsFullPass.pp_if_ss = metricsOtherStats.pp_if_ss :=
  ⟨⟨rfl, eval_scoreFullPass, eval_scoreOtherStats⟩,
    pp_if_ss_ignores_hit_statistics libNoMaxCombo "beatmap.osu" scoreFullPass
      scoreOtherStats true rfl metricsFullPass metricsOtherStats
      eval_scoreFullPass eval_scoreOtherStats⟩

/-- C8 counterexample: a score whose passed-object count (10 greats) exceeds
`circleCount + sliderCount = 9` — as happens on real maps whose spinners are
not part of the engine's object total — yields
`accuracy_if_fc = 1000/9 ≈ 111.1% > 100`, so the claimed range [0, 100] does
not hold for every input. -/
theorem accuracy_if_fc_can_exceed_100 :
    calculate_score_metrics libNineCircles "beatmap.osu" scoreTenGreats true
      = Except.ok metricsTenGreats ∧
    metricsTenGreats.accuracy_if_fc = some (1000 / 9) ∧
    ¬ ((1000 / 9 : ℚ) ≤ 100) := by
  refine ⟨?_, rfl, by norm_num⟩
  norm_num [calculate_score_metrics, libNineCircles, attrsNineCircles,
    scoreTenGreats, emptyBeatmapInfo, metricsTenGreats, _calculate_fc_stats,
    _calculate_fc_pp, _calculate_actual_pp, _calculate_ss_pp,
    api_mods_to_string, max_def, ceil_eq_neg_floor]

/-- C8 (amended): whenever the score's judgement counts are nonnegative and
their sum does not exceed `circleCount + sliderCount`, the `accuracy_if_fc`
field of a successful `calculate_score_metrics` result lies in [0, 100]. -/
theorem accuracy_if_fc_in_range {B : Type} (lib : RosuLib B) (path : String)
    (score : Score) (lazer : Bool) (bm : B) (attrs : DifficultyAttributes)
    (m : ScoreMetrics) (q : ℚ)
    (hp : lib.parse path = Except.ok bm)
    (hd : lib.difficulty (api_mods_to_string score.mods) lazer bm
      = Except.ok attrs)
    (hm : calculate_score_metrics lib path score lazer = Except.ok m)
    (hg : 0 ≤ score.statistics.great.getD 0)
    (ho : 0 ≤ score.statistics.ok.getD 0)
    (hme : 0 ≤ score.statistics.meh.getD 0)
    (hmi : 0 ≤ score.statistics.miss.getD 0)
    (hsum : score.statistics.great.getD 0 + score.statistics.ok.getD 0
      + score.statistics.meh.getD 0 + score.statistics.miss.getD 0
      ≤ attrs.n_circles.getD 0 + attrs.n_sliders.getD 0)
    (hq : m.accuracy_if_fc = some q) :
    0 ≤ q ∧ q ≤ 100 := by
  have hacc := accuracy_if_fc_of_ok lib path score lazer bm attrs m hp hd hm
  rw [hq] at hacc
  rw [Option.some.inj hacc]
  exact fc_stats_accuracy_range _ _ _ _ _ hg ho hme hmi hsum

theorem accuracy_if_fc_in_range_witness :
    (calculate_score_metrics libNoMaxCombo "beatmap.osu" scoreFullPass true
        = Except.ok metricsFullPass ∧
      metricsFullPass.accuracy_if_fc = some (175 / 2)) ∧
    (0 ≤ (175 / 2 : ℚ) ∧ (175 / 2 : ℚ) ≤ 100) :=
  ⟨⟨eval_scoreFullPass, rfl⟩,
    accuracy_if_fc_in_range libNoMaxCombo "beatmap.osu" scoreFullPass true ()
      attrsNoMaxCombo metricsFullPass (175 / 2) rfl rfl eval_scoreFullPass
      (by norm_num [scoreFullPass]) (by norm_num [scoreFullPass])
      (by norm_num [scoreFullPass]) (by norm_num [scoreFullPass])
      (by norm_num [scoreFullPass, attrsNoMaxCombo]) rfl⟩

/-- C1: exhibit of the failure the claim rules out.  With an external
calculator that never raises and difficulty attributes carrying no
`max_combo`, the stable scoring model (`lazer = false`) fails with
`TypeError` — not a `CalculationError` — on a well-formed score, because the
full-combo evaluation runs `set_combo(int(map_max_combo))` with
`map_max_combo = None` (src/utils/rosu.py line 138). -/
theorem stable_missing_max_combo_raises_typeerror :
    calculate_score_metrics libNoMaxCombo "beatmap.osu" scoreFullPass false
      = Except.error PyError.typeError := rfl
